import Mathlib

/-!
Verification of the Speech_To_Text client core (api.ts and App.tsx).

The repository is a speech-to-text client with four input modes (file
upload, microphone session, batch upload, live captioning).  This file
gives a shallow embedding of the client core as pure Lean functions:

* the data model of api.ts (TranscriptionOptions, TranscriptionSegment,
  TranscriptionResult), with JS numbers embedded as rationals (the client
  performs no arithmetic on them, only carries and compares them);
* api.transcribeFile as a function of the abstracted service response,
  paired with the list of outbound requests the invocation issues;
* the App.tsx handlers (handleFileUpload, handleBatchUpload,
  handleRecordToggle, the unmount cleanup effect) as state transformers
  on the component state, parameterised by the outcome of the awaited
  api call, again paired with the outbound requests issued;
* the live-captioning channel (api.startLiveCaptioning composed with the
  onUpdate callback of handleLiveCaptioning) as a step function over an
  event trace.  The step function composes the source's ws.onmessage
  handler with the standard WebSocket delivery rule: message events fire
  only while the socket has not begun closing, so events arriving after
  close() was called are not dispatched to the handler.

Asynchrony is embedded by making each handler a function of the outcome
of the one awaited operation it performs; the event loop is
single-threaded, so a handler's net effect on the state is the
composition of its setState calls in program order.
-/

namespace SpeechToText

/-- An audio file handle, abstracted to its name (the client never reads
file contents itself; it only forwards the blob to the service). -/
structure AudioFile where
  name : String
deriving DecidableEq

/-- TranscriptionOptions from api.ts.  JS numbers are embedded as
rationals; the client only carries these values. -/
structure TranscriptionOptions where
  modelSize : String
  inputLanguage : String
  outputLanguage : String
  format : String
  preprocess : Bool
  highPass : Bool
  hpCutoff : Rat
  hpOrder : Int
  temperature : Rat
deriving DecidableEq

/-- TranscriptionSegment from api.ts.  The source field named end is a
Lean keyword and is embedded as endTime. -/
structure TranscriptionSegment where
  text : String
  start : Rat
  endTime : Rat
deriving DecidableEq

/-- TranscriptionResult from api.ts. -/
structure TranscriptionResult where
  original_language : String
  output_language : String
  language_probability : Rat
  segments : List TranscriptionSegment
  output_file : String
deriving DecidableEq

/-- An outbound request issued by the api functions, one constructor per
fetch call site in api.ts. -/
inductive Request where
  | transcribe (file : AudioFile) (options : TranscriptionOptions)
  | transcribeBatch (files : List AudioFile) (options : TranscriptionOptions)
  | startRecording (options : TranscriptionOptions)
  | stopRecording (sessionId : String)
deriving DecidableEq

/-- The error taxonomy of the spec for the request client: a transport
failure (network failure or non-success status) or a decode failure
(response body not parseable as the expected result). -/
inductive ApiError where
  | transportError
  | decodeError
deriving DecidableEq

/-- Abstraction of what the remote service does with one request: the
fetch promise rejects (network failure), or an HTTP response arrives
with a success flag and a body that either decodes to a value of the
expected type or does not (none). -/
inductive ServiceResponse (α : Type) where
  | networkFailure
  | http (ok : Bool) (body : Option α)
deriving DecidableEq

/-- api.transcribeFile: appends the file and the flattened option fields
to a FormData, performs exactly one fetch, throws on !response.ok, and
otherwise returns response.json() unchanged.  The first component is the
outcome, the second the list of outbound requests the invocation issued
(always exactly the one fetch; the source has no retry). -/
def transcribeFile (file : AudioFile) (options : TranscriptionOptions)
    (resp : ServiceResponse TranscriptionResult) :
    Except ApiError TranscriptionResult × List Request :=
  (match resp with
   | .networkFailure => .error .transportError
   | .http false _ => .error .transportError
   | .http true none => .error .decodeError
   | .http true (some r) => .ok r,
   [Request.transcribe file options])

/-- The segments of a result are in non-decreasing start order. -/
def SortedByStart (segs : List TranscriptionSegment) : Prop :=
  segs.Pairwise (fun a b => a.start ≤ b.start)

instance (segs : List TranscriptionSegment) : Decidable (SortedByStart segs) :=
  List.instDecidablePairwise segs

/-! ### The live-captioning channel -/

/-- One inbound WebSocket message, after the JSON.parse attempt in
ws.onmessage: either the parse throws (malformed), or it yields a value
whose text field is absent (none) or a string.  The handler's guard
if (data.text) is string truthiness: present and non-empty. -/
inductive LiveMsg where
  | malformed
  | payload (text : Option String)
deriving DecidableEq

/-- An event on the live channel as seen by the client: an inbound
message, or the caller invoking the cancel function returned by
api.startLiveCaptioning (which calls ws.close()). -/
inductive LiveEvent where
  | message (m : LiveMsg)
  | cancel
deriving DecidableEq

/-- State of one live-captioning channel: whether close() has been
called, the fragments passed to the subscriber callback in order, and
the live transcription buffer maintained by the onUpdate callback of
handleLiveCaptioning (setLiveTranscription (prev + newline + text)). -/
structure LiveState where
  closed : Bool
  delivered : List String
  buffer : String
deriving DecidableEq

/-- The onUpdate callback of handleLiveCaptioning in App.tsx:
setLiveTranscription (prev => prev + newline + text). -/
def appendLive (prev text : String) : String := prev ++ "\n" ++ text

/-- The text the ws.onmessage handler forwards to onUpdate for a given
message, if any: JSON.parse must succeed and data.text must be truthy
(a present, non-empty string).  A parse failure is caught and logged,
yielding no delivery. -/
def deliveredText (m : LiveMsg) : Option String :=
  match m with
  | .malformed => none
  | .payload none => none
  | .payload (some t) => if t = "" then none else some t

/-- One step of the live channel.  cancel calls ws.close(), after which
the WebSocket dispatches no further message events (standard WebSocket
semantics: message events fire only in the OPEN state); an inbound
message in the open state runs the ws.onmessage handler of api.ts. -/
def liveStep (s : LiveState) (e : LiveEvent) : LiveState :=
  match e with
  | .cancel => { s with closed := true }
  | .message m =>
    if s.closed then s
    else
      match deliveredText m with
      | none => s
      | some t => { s with delivered := s.delivered ++ [t],
                           buffer := appendLive s.buffer t }

/-- Processing a trace of events on the live channel. -/
def liveRun (s : LiveState) (events : List LiveEvent) : LiveState :=
  events.foldl liveStep s

/-- The state of a freshly opened live channel with an empty buffer. -/
def initLiveState : LiveState := { closed := false, delivered := [], buffer := "" }

/-- A step never reopens a closed channel, and a message event never
changes the closed flag. -/
theorem liveStep_closed_message (s : LiveState) (m : LiveMsg) :
    (liveStep s (.message m)).closed = s.closed := by
  unfold liveStep
  cases h : s.closed with
  | true => simp [h]
  | false =>
    simp only [h, Bool.false_eq_true, if_false]
    cases deliveredText m <;> simp [h]

/-- On a closed channel every event is a no-op: messages are not
dispatched and a further cancel leaves the already-true flag as is. -/
theorem liveStep_eq_of_closed (s : LiveState) (e : LiveEvent)
    (h : s.closed = true) : liveStep s e = s := by
  cases e with
  | cancel =>
    cases s
    simp_all [liveStep]
  | message m =>
    simp [liveStep, h]

/-- A whole trace is a no-op on a closed channel. -/
theorem liveRun_eq_of_closed (s : LiveState) (events : List LiveEvent)
    (h : s.closed = true) : liveRun s events = s := by
  induction events with
  | nil => rfl
  | cons e rest ih =>
    show liveRun (liveStep s e) rest = s
    rw [liveStep_eq_of_closed s e h, ih]

/-- Running an open channel over message events only delivers exactly
the filterMap of deliveredText, appended in arrival order. -/
theorem liveRun_delivered_messages (msgs : List LiveMsg) (s : LiveState)
    (h : s.closed = false) :
    (liveRun s (msgs.map LiveEvent.message)).delivered
      = s.delivered ++ msgs.filterMap deliveredText := by
  induction msgs generalizing s with
  | nil => simp [liveRun]
  | cons m rest ih =>
    have hstep : (liveStep s (.message m)).closed = false := by
      rw [liveStep_closed_message, h]
    have hrun : liveRun s ((m :: rest).map LiveEvent.message)
        = liveRun (liveStep s (.message m)) (rest.map LiveEvent.message) := rfl
    rw [hrun, ih _ hstep]
    unfold liveStep
    simp only [h, if_false, Bool.false_eq_true]
    cases hd : deliveredText m with
    | none => simp [List.filterMap_cons, hd]
    | some t => simp [List.filterMap_cons, hd]

/-- C2: after the cancel function returned by startLiveCaptioning is
invoked (the stop path of the live-captioning toggle), no further
fragment is ever delivered to the subscriber callback, even if the
remote side sends more messages before the close completes
network-side: the delivered sequence after processing any further
events equals the delivered sequence at the point of cancel. -/
theorem cancel_stops_all_deliveries (s : LiveState) (pre post : List LiveEvent) :
    (liveRun s (pre ++ LiveEvent.cancel :: post)).delivered
      = (liveRun s (pre ++ [LiveEvent.cancel])).delivered := by
  have h1 : liveRun s (pre ++ LiveEvent.cancel :: post)
      = liveRun (liveRun s (pre ++ [LiveEvent.cancel])) post := by
    unfold liveRun
    rw [← List.foldl_append]
    simp
  have h2 : (liveRun s (pre ++ [LiveEvent.cancel])).closed = true := by
    unfold liveRun
    rw [List.foldl_append]
    rfl
  rw [h1, liveRun_eq_of_closed _ post h2]

/-- C3: over any sequence of inbound messages on a fresh open channel,
exactly the messages whose parsed payload has a non-empty text field are
delivered to the subscriber, in arrival order; in particular the inputs
text "a", text "", text "b" yield exactly the deliveries "a" then "b". -/
theorem live_delivery_is_nonempty_text_filter (msgs : List LiveMsg) :
    (liveRun initLiveState (msgs.map LiveEvent.message)).delivered
      = msgs.filterMap deliveredText
    ∧ (liveRun initLiveState
        [LiveEvent.message (.payload (some "a")),
         LiveEvent.message (.payload (some "")),
         LiveEvent.message (.payload (some "b"))]).delivered = ["a", "b"] := by
  constructor
  · have h := liveRun_delivered_messages msgs initLiveState rfl
    simpa [initLiveState] using h
  · decide

/-- C4: a malformed inbound message — non-JSON (JSON.parse threw, the
catch only logs) or JSON whose text field is absent (data.text is
undefined, failing the guard) — is discarded without any delivery: the
whole channel state, including the live buffer, the delivered sequence
and the closed flag, is unchanged, and the remaining events are
processed exactly as if the malformed message had never arrived. -/
theorem malformed_or_missing_text_ignored (s : LiveState) (rest : List LiveEvent) :
    (liveStep s (LiveEvent.message .malformed) = s
      ∧ liveRun s (LiveEvent.message .malformed :: rest) = liveRun s rest)
    ∧ (liveStep s (LiveEvent.message (.payload none)) = s
      ∧ liveRun s (LiveEvent.message (.payload none) :: rest) = liveRun s rest) := by
  have h1 : liveStep s (LiveEvent.message .malformed) = s := by
    unfold liveStep deliveredText
    by_cases h : s.closed = true <;> simp [h]
  have h2 : liveStep s (LiveEvent.message (.payload none)) = s := by
    unfold liveStep deliveredText
    by_cases h : s.closed = true <;> simp [h]
  refine ⟨⟨h1, ?_⟩, h2, ?_⟩
  · show liveRun (liveStep s (LiveEvent.message .malformed)) rest = liveRun s rest
    rw [h1]
  · show liveRun (liveStep s (LiveEvent.message (.payload none))) rest = liveRun s rest
    rw [h2]

/-! ### The App component state and handlers -/

/-- The React state of the App component in App.tsx: the four transcript
buffers, the language and model settings, the recording and processing
flags, the stored session identifier, the error banner, and copy
feedback. -/
structure AppState where
  selectedTab : String
  fileTranscription : String
  micTranscription : String
  batchTranscription : String
  liveTranscription : String
  inputLang : String
  outputLang : String
  modelSize : String
  isRecording : Bool
  isProcessing : Bool
  currentSessionId : Option String
  error : Option String
  copySuccess : Bool
deriving DecidableEq

/-- getTranscriptionOptions in App.tsx: a snapshot of the current
settings plus the fixed defaults. -/
def getTranscriptionOptions (s : AppState) : TranscriptionOptions :=
  { modelSize := s.modelSize
    inputLanguage := s.inputLang
    outputLanguage := s.outputLang
    format := "txt"
    preprocess := true
    highPass := true
    hpCutoff := 80
    hpOrder := 4
    temperature := 0 }

/-- The rendering App.tsx applies to one completed result:
result.segments.map(segment => segment.text).join(newline). -/
def renderResult (r : TranscriptionResult) : String :=
  String.intercalate "\n" (r.segments.map (fun seg => seg.text))

/-- The rendering handleBatchUpload applies to a batch response
(Object.values order of the returned record, modelled as an association
list in that order): each result rendered as for a single file, joined
with a blank line. -/
def combineBatch (results : List (String × TranscriptionResult)) : String :=
  String.intercalate "\n\n" (results.map (fun p => renderResult p.2))

/-- handleFileUpload in App.tsx, as a function of the selected file (the
source returns early when none is selected) and the outcome of the
awaited api.transcribeFile call.  Returns the component state after the
handler finishes, paired with the outbound requests the invocation
issued.  On success the error banner was cleared and only the file
buffer is replaced; on failure the caught message is set; the finally
block clears isProcessing in both branches. -/
def handleFileUpload (s : AppState) (file : Option AudioFile)
    (outcome : Except String TranscriptionResult) : AppState × List Request :=
  match file with
  | none => (s, [])
  | some f =>
    match outcome with
    | .ok result =>
      ({ s with isProcessing := false
                error := none
                fileTranscription := renderResult result },
       [Request.transcribe f (getTranscriptionOptions s)])
    | .error msg =>
      ({ s with isProcessing := false, error := some msg },
       [Request.transcribe f (getTranscriptionOptions s)])

/-- handleBatchUpload in App.tsx: early return on an empty file list;
otherwise one api.transcribeBatch call whose successful outcome replaces
the batch buffer with the combined rendering. -/
def handleBatchUpload (s : AppState) (files : List AudioFile)
    (outcome : Except String (List (String × TranscriptionResult))) :
    AppState × List Request :=
  match files with
  | [] => (s, [])
  | f :: rest =>
    match outcome with
    | .ok results =>
      ({ s with isProcessing := false
                error := none
                batchTranscription := combineBatch results },
       [Request.transcribeBatch (f :: rest) (getTranscriptionOptions s)])
    | .error msg =>
      ({ s with isProcessing := false, error := some msg },
       [Request.transcribeBatch (f :: rest) (getTranscriptionOptions s)])

/-- handleRecordToggle in App.tsx.  When isRecording is set the handler
takes the stop path: the guard if (currentSessionId) is JS truthiness,
so a stop request is issued only for a present, non-empty identifier; a
successful stop replaces the mic buffer, a failed one sets the error
banner, and in every case the handler then clears isRecording and the
stored identifier.  Otherwise it takes the start path: on success it
stores the returned identifier, sets isRecording and clears the error
banner; on failure it only sets the error banner.  The function is
parameterised by the outcome the awaited api call would produce on the
path actually taken. -/
def handleRecordToggle (s : AppState)
    (startOutcome : Except String String)
    (stopOutcome : Except String TranscriptionResult) : AppState × List Request :=
  if s.isRecording then
    match s.currentSessionId with
    | some sid =>
      if sid = "" then
        ({ s with isRecording := false, currentSessionId := none }, [])
      else
        match stopOutcome with
        | .ok result =>
          ({ s with micTranscription := renderResult result
                    isRecording := false
                    currentSessionId := none },
           [Request.stopRecording sid])
        | .error msg =>
          ({ s with error := some msg
                    isRecording := false
                    currentSessionId := none },
           [Request.stopRecording sid])
    | none => ({ s with isRecording := false, currentSessionId := none }, [])
  else
    match startOutcome with
    | .ok sid =>
      ({ s with currentSessionId := some sid, isRecording := true, error := none },
       [Request.startRecording (getTranscriptionOptions s)])
    | .error msg =>
      ({ s with error := some msg },
       [Request.startRecording (getTranscriptionOptions s)])

/-- The unmount cleanup effect in App.tsx: if the stored session
identifier is truthy (present and non-empty), issue
api.stopRecording(currentSessionId) with .catch(console.error) — the
outcome, passed as the second argument, is never written to any state
(there is no UI left; failure is only logged). -/
def unmountCleanup (s : AppState)
    (stopOutcome : Except String TranscriptionResult) : AppState × List Request :=
  match s.currentSessionId with
  | some sid =>
    if sid = "" then (s, [])
    else
      match stopOutcome with
      | .ok _ => (s, [Request.stopRecording sid])
      | .error _ => (s, [Request.stopRecording sid])
  | none => (s, [])

/-! ### Concrete states and results used by witnesses and counterexamples -/

/-- The initial component state of App.tsx (all useState defaults). -/
def baseState : AppState :=
  { selectedTab := "file"
    fileTranscription := ""
    micTranscription := ""
    batchTranscription := ""
    liveTranscription := ""
    inputLang := "auto"
    outputLang := "en"
    modelSize := "medium"
    isRecording := false
    isProcessing := false
    currentSessionId := none
    error := none
    copySuccess := false }

/-- A state in which a microphone session is active under id s1. -/
def activeState : AppState :=
  { baseState with isRecording := true, currentSessionId := some "s1" }

/-- A state whose stored session identifier is the empty string. -/
def emptyIdState : AppState :=
  { baseState with isRecording := true, currentSessionId := some "" }

/-- A one-segment service result. -/
def demoResult1 : TranscriptionResult :=
  { original_language := "en"
    output_language := "en"
    language_probability := 1
    segments := [{ text := "hello", start := 0, endTime := 1 }]
    output_file := "out1.txt" }

/-- A second one-segment service result with different text. -/
def demoResult2 : TranscriptionResult :=
  { original_language := "en"
    output_language := "en"
    language_probability := 1
    segments := [{ text := "world", start := 0, endTime := 1 }]
    output_file := "out2.txt" }

/-- A two-segment result whose segments are in non-decreasing start order. -/
def demoSorted : TranscriptionResult :=
  { original_language := "en"
    output_language := "en"
    language_probability := 1
    segments := [{ text := "hello", start := 0, endTime := 1 },
                 { text := "world", start := 1, endTime := 2 }]
    output_file := "out3.txt" }

/-! ### Claim theorems -/

/-- C1 counterexample: in an Active state (isRecording set, identifier
s1 stored), invoking the session entry point again — handleRecordToggle
is the only caller of start — does not fail and produces no error value
at all: the invocation is interpreted as a stop and issues the stop
request for the active session.  No AlreadyActiveError exists anywhere
in the code. -/
theorem active_second_invocation_is_stop_not_error :
    (handleRecordToggle activeState (.ok "s2") (.ok demoResult1)).1.error = none
    ∧ (handleRecordToggle activeState (.ok "s2") (.ok demoResult1)).2
        = [Request.stopRecording "s1"] := by
  constructor <;> rfl

/-- C1 amended: while a session is Active the toggle entry point never
issues a start request (so a second session can never be started while
one is active — the caller's state check replaces any AlreadyActiveError),
and the invocation instead completes the stop transition, reaching Idle
(isRecording cleared, identifier discarded); from any state with
isRecording cleared, a toggle whose start call succeeds with a fresh
identifier reaches Active with that identifier stored. -/
theorem no_start_while_active_and_restart_after_stop (s : AppState)
    (so : Except String String) (sp : Except String TranscriptionResult)
    (sid2 : String) (hrec : s.isRecording = true) :
    (∀ o, Request.startRecording o ∉ (handleRecordToggle s so sp).2)
    ∧ (handleRecordToggle s so sp).1.isRecording = false
    ∧ (handleRecordToggle s so sp).1.currentSessionId = none
    ∧ (∀ t : AppState, t.isRecording = false →
        (handleRecordToggle t (.ok sid2) sp).1.isRecording = true
        ∧ (handleRecordToggle t (.ok sid2) sp).1.currentSessionId = some sid2) := by
  refine ⟨?_, ?_, ?_, ?_⟩
  · intro o
    unfold handleRecordToggle
    simp only [hrec, if_true]
    cases hc : s.currentSessionId with
    | none => simp
    | some sid =>
      by_cases hs : sid = ""
      · simp [hs]
      · cases sp <;> simp [hs]
  · unfold handleRecordToggle
    simp only [hrec, if_true]
    cases hc : s.currentSessionId with
    | none => rfl
    | some sid =>
      by_cases hs : sid = ""
      · simp [hs]
      · cases sp <;> simp [hs]
  · unfold handleRecordToggle
    simp only [hrec, if_true]
    cases hc : s.currentSessionId with
    | none => rfl
    | some sid =>
      by_cases hs : sid = ""
      · simp [hs]
      · cases sp <;> simp [hs]
  · intro t ht
    unfold handleRecordToggle
    simp [ht]

/-- C1 witness: the amended claim applied in the concrete Active state,
with a successful start outcome waiting and a successful stop result. -/
theorem no_start_while_active_witness :
    (∀ o, Request.startRecording o
        ∉ (handleRecordToggle activeState (.ok "s2") (.ok demoResult1)).2)
    ∧ (handleRecordToggle activeState (.ok "s2") (.ok demoResult1)).1.isRecording = false
    ∧ (handleRecordToggle activeState (.ok "s2") (.ok demoResult1)).1.currentSessionId = none
    ∧ (∀ t : AppState, t.isRecording = false →
        (handleRecordToggle t (.ok "s2") (.ok demoResult1)).1.isRecording = true
        ∧ (handleRecordToggle t (.ok "s2") (.ok demoResult1)).1.currentSessionId = some "s2") :=
  no_start_while_active_and_restart_after_stop activeState (.ok "s2") (.ok demoResult1) "s2" rfl

/-- C5: completion semantics of the four transcript buffers.  For the
file buffer, completing result r1 and then r2 leaves exactly r2's
segments' text joined with newlines; likewise for the batch buffer with
two completed batch responses; for the mic buffer a completed stop
replaces the buffer with that stop's rendering, so a stop with r1
followed by a restart and a stop with r2 leaves exactly r2's rendering;
for the live buffer two delivered fragments x then y leave the prior
buffer content with a newline, x, a newline, then y appended, removing
nothing. -/
theorem transcript_buffer_update_rules (s : AppState)
    (f1 f2 g1 g2 : AudioFile) (r1 r2 : TranscriptionResult)
    (rs1 rs2 : List (String × TranscriptionResult))
    (so : Except String String) (sid sid2 x y : String) (ls : LiveState)
    (hrec : s.isRecording = true) (hsid : s.currentSessionId = some sid)
    (h1 : sid ≠ "") (h2 : sid2 ≠ "") (hopen : ls.closed = false)
    (hx : x ≠ "") (hy : y ≠ "") :
    ((handleFileUpload (handleFileUpload s (some f1) (.ok r1)).1
        (some f2) (.ok r2)).1).fileTranscription = renderResult r2
    ∧ ((handleBatchUpload (handleBatchUpload s [g1] (.ok rs1)).1
        [g2] (.ok rs2)).1).batchTranscription = combineBatch rs2
    ∧ ((handleRecordToggle s so (.ok r1)).1).micTranscription = renderResult r1
    ∧ ((handleRecordToggle
          (handleRecordToggle (handleRecordToggle s so (.ok r1)).1
            (.ok sid2) (.ok r1)).1
          so (.ok r2)).1).micTranscription = renderResult r2
    ∧ (liveRun ls [LiveEvent.message (.payload (some x)),
                   LiveEvent.message (.payload (some y))]).buffer
        = ls.buffer ++ "\n" ++ x ++ "\n" ++ y := by
  refine ⟨rfl, rfl, ?_, ?_, ?_⟩
  · simp [handleRecordToggle, hrec, hsid, h1]
  · simp [handleRecordToggle, hrec, hsid, h1, h2]
  · simp [liveRun, liveStep, hopen, deliveredText, hx, hy, appendLive]

/-- C5 witness: the buffer rules applied at concrete inputs. -/
theorem transcript_buffer_update_rules_witness :
    ((handleFileUpload (handleFileUpload activeState (some ⟨"a.wav"⟩) (.ok demoResult1)).1
        (some ⟨"b.wav"⟩) (.ok demoResult2)).1).fileTranscription = renderResult demoResult2
    ∧ ((handleBatchUpload (handleBatchUpload activeState [⟨"a.wav"⟩] (.ok [("a", demoResult1)])).1
        [⟨"b.wav"⟩] (.ok [("b", demoResult2)])).1).batchTranscription
        = combineBatch [("b", demoResult2)]
    ∧ ((handleRecordToggle activeState (.ok "s9") (.ok demoResult1)).1).micTranscription
        = renderResult demoResult1
    ∧ ((handleRecordToggle
          (handleRecordToggle (handleRecordToggle activeState (.ok "s9") (.ok demoResult1)).1
            (.ok "s2") (.ok demoResult1)).1
          (.ok "s9") (.ok demoResult2)).1).micTranscription = renderResult demoResult2
    ∧ (liveRun initLiveState [LiveEvent.message (.payload (some "x")),
                   LiveEvent.message (.payload (some "y"))]).buffer
        = initLiveState.buffer ++ "\n" ++ "x" ++ "\n" ++ "y" :=
  transcript_buffer_update_rules activeState ⟨"a.wav"⟩ ⟨"b.wav"⟩ ⟨"a.wav"⟩ ⟨"b.wav"⟩
    demoResult1 demoResult2 [("a", demoResult1)] [("b", demoResult2)]
    (.ok "s9") "s1" "s2" "x" "y" initLiveState rfl rfl (by decide) (by decide) rfl
    (by decide) (by decide)

/-- C6: when the toggle is invoked with isRecording set (stop on an
Active session), the handler finishes with the stored identifier
discarded and the recording flag cleared, in the success branch and the
failure branch alike (the stop outcome is universally quantified). -/
theorem stop_resets_session_both_branches (s : AppState)
    (so : Except String String) (sp : Except String TranscriptionResult)
    (hrec : s.isRecording = true) :
    (handleRecordToggle s so sp).1.isRecording = false
    ∧ (handleRecordToggle s so sp).1.currentSessionId = none := by
  unfold handleRecordToggle
  simp only [hrec, if_true]
  cases hc : s.currentSessionId with
  | none => exact ⟨rfl, rfl⟩
  | some sid =>
    by_cases hs : sid = ""
    · simp [hs]
    · cases sp <;> simp [hs]

/-- C6 witness: stopping in the concrete Active state with a failing
stop request still clears the flag and the identifier. -/
theorem stop_resets_session_witness :
    (handleRecordToggle activeState (.ok "s2")
        (.error "Failed to stop recording")).1.isRecording = false
    ∧ (handleRecordToggle activeState (.ok "s2")
        (.error "Failed to stop recording")).1.currentSessionId = none :=
  stop_resets_session_both_branches activeState (.ok "s2")
    (.error "Failed to stop recording") rfl

/-- C7: api.transcribeFile issues exactly one outbound request per
invocation whatever the service does (no retry); a network failure or a
non-success status yields a transport error, an undecodable body of a
success response yields a decode error, and a decodable body is
returned unchanged, so when the service's segments are in non-decreasing
start order the returned segments are the same list in the same order. -/
theorem transcribeFile_contract (f : AudioFile) (o : TranscriptionOptions)
    (resp : ServiceResponse TranscriptionResult) (r : TranscriptionResult)
    (hsorted : SortedByStart r.segments) :
    (transcribeFile f o resp).2 = [Request.transcribe f o]
    ∧ (transcribeFile f o .networkFailure).1 = .error .transportError
    ∧ (∀ body, (transcribeFile f o (.http false body)).1 = .error .transportError)
    ∧ (transcribeFile f o (.http true none)).1 = .error .decodeError
    ∧ (transcribeFile f o (.http true (some r))).1 = .ok r
    ∧ (∀ out, (transcribeFile f o (.http true (some r))).1 = .ok out →
        out.segments = r.segments ∧ SortedByStart out.segments) := by
  refine ⟨rfl, rfl, fun body => rfl, rfl, rfl, ?_⟩
  intro out hout
  have hro : r = out := by simpa [transcribeFile] using hout
  subst hro
  exact ⟨rfl, hsorted⟩

/-- C7 witness: the contract applied to a concrete file, the default
options and a two-segment sorted result. -/
theorem transcribeFile_contract_witness :
    SortedByStart demoSorted.segments
    ∧ ((transcribeFile ⟨"a.wav"⟩ (getTranscriptionOptions baseState) .networkFailure).2
        = [Request.transcribe ⟨"a.wav"⟩ (getTranscriptionOptions baseState)]
    ∧ (transcribeFile ⟨"a.wav"⟩ (getTranscriptionOptions baseState) .networkFailure).1
        = .error .transportError
    ∧ (∀ body, (transcribeFile ⟨"a.wav"⟩ (getTranscriptionOptions baseState)
        (.http false body)).1 = .error .transportError)
    ∧ (transcribeFile ⟨"a.wav"⟩ (getTranscriptionOptions baseState) (.http true none)).1
        = .error .decodeError
    ∧ (transcribeFile ⟨"a.wav"⟩ (getTranscriptionOptions baseState)
        (.http true (some demoSorted))).1 = .ok demoSorted
    ∧ (∀ out, (transcribeFile ⟨"a.wav"⟩ (getTranscriptionOptions baseState)
        (.http true (some demoSorted))).1 = .ok out →
        out.segments = demoSorted.segments ∧ SortedByStart out.segments)) :=
  ⟨by decide,
   transcribeFile_contract ⟨"a.wav"⟩ (getTranscriptionOptions baseState) .networkFailure
     demoSorted (by decide)⟩

/-- C8 counterexample: the unmount guard if (currentSessionId) is JS
truthiness, so with the empty string stored as the session identifier —
an identifier is stored, the session is Active — the cleanup issues no
stop request at all. -/
theorem unmount_cleanup_empty_id_no_stop :
    emptyIdState.currentSessionId = some ""
    ∧ emptyIdState.isRecording = true
    ∧ (unmountCleanup emptyIdState (.ok demoResult1)).2 = [] := by
  refine ⟨rfl, rfl, rfl⟩

/-- C8 amended: if the component unmounts while a non-empty session
identifier is stored, a best-effort stop request carrying exactly that
identifier is issued, and whatever the outcome of that request — success
or failure — the state (including the user-visible error banner) is
untouched: the failure is only logged.  When the stored identifier is
the empty string (falsy under the source's guard) no stop is issued. -/
theorem unmount_cleanup_best_effort (s : AppState) (sid : String)
    (outcome : Except String TranscriptionResult)
    (hsid : s.currentSessionId = some sid) (hne : sid ≠ "") :
    (unmountCleanup s outcome).2 = [Request.stopRecording sid]
    ∧ (unmountCleanup s outcome).1 = s := by
  unfold unmountCleanup
  simp only [hsid]
  cases outcome <;> simp [hne]

/-- C8 witness: unmounting in the concrete Active state with a failing
best-effort stop issues the request and changes nothing. -/
theorem unmount_cleanup_best_effort_witness :
    (unmountCleanup activeState (.error "network")).2 = [Request.stopRecording "s1"]
    ∧ (unmountCleanup activeState (.error "network")).1 = activeState :=
  unmount_cleanup_best_effort activeState "s1" (.error "network") rfl (by decide)

/-- C9: delivering one fragment with non-empty text t into an empty live
buffer leaves the buffer equal to a newline followed by t — the onUpdate
callback prefixes every fragment, including the first, with a newline,
so the live buffer never begins with a fragment's text directly. -/
theorem first_fragment_into_empty_buffer (ls : LiveState) (t : String)
    (hopen : ls.closed = false) (hbuf : ls.buffer = "") (ht : t ≠ "") :
    (liveStep ls (LiveEvent.message (.payload (some t)))).buffer = "\n" ++ t := by
  unfold liveStep
  simp [hopen, deliveredText, ht, appendLive, hbuf]

/-- C9 witness: the first delivered fragment hi lands as newline-hi. -/
theorem first_fragment_witness :
    (liveStep initLiveState (LiveEvent.message (.payload (some "hi")))).buffer
      = "\n" ++ "hi" :=
  first_fragment_into_empty_buffer initLiveState "hi" rfl rfl (by decide)

/-- C10: invoking the file-upload handler with no file selected, or the
batch-upload handler with an empty file list, returns before touching
anything: the entire component state is unchanged and no outbound
request is issued. -/
theorem empty_selection_no_effect (s : AppState)
    (fo : Except String TranscriptionResult)
    (bo : Except String (List (String × TranscriptionResult))) :
    handleFileUpload s none fo = (s, [])
    ∧ handleBatchUpload s [] bo = (s, []) :=
  ⟨rfl, rfl⟩

end SpeechToText
